import Mathlib

/-!
Verification of the decision-api repository: a collections "smart retry"
decision engine.  The repository contains a canonical core
(`src/lib/smart-retry-core.js`, function `decideLoanV2`) together with several
historical variants (`src/unnamed/part_001` … `part_004`) and the serverless
handler (`src/api/decide.js`).

This file gives a shallow embedding of the data model and operations:

* JavaScript string helpers (`toLowerCase`, `toUpperCase`, `trim`,
  `String.prototype.includes`) over Lean `String`;
* JavaScript `Date` UTC semantics over `Int` epoch-millisecond timestamps,
  via the standard civil-from-days / days-from-civil conversions (including
  the day-overflow normalization JavaScript applies to `Date.UTC`);
* the rule cascade `decideLoanV2` (canonical and part_004 variants), the
  history summarizers, the part_003 batch engine `decideRetries`, and the
  part_001 scheduling tail (`next15or30`, minimum-gap enforcement).

Numeric loan fields are modelled as `Option ℚ` (`none` stands for an absent
or non-finite input, which the code coerces to 0).  Non-ASCII upper-case
letters are outside the `toLowerCase` model; every keyword the code compares
against is already lower-case in the source.
-/

namespace DecisionApi

/-- JavaScript `String.prototype.toLowerCase` (ASCII letters). -/
def jsToLower (s : String) : String := ⟨s.data.map Char.toLower⟩

/-- JavaScript `String.prototype.toUpperCase` (ASCII letters). -/
def jsToUpper (s : String) : String := ⟨s.data.map Char.toUpper⟩

/-- JavaScript `String.prototype.trim`: strip leading and trailing
whitespace. -/
def jsTrim (s : String) : String :=
  ⟨((s.data.dropWhile Char.isWhitespace).reverse.dropWhile
      Char.isWhitespace).reverse⟩

/-- JavaScript `String.prototype.includes`: substring containment. -/
def jsIncludes (s sub : String) : Bool := decide (sub.data <:+: s.data)

/-- JavaScript `x || dflt` for an optional string: an absent or empty
(falsy) string is replaced by the default. -/
def jsOrDefault (o : Option String) (dflt : String) : String :=
  match o with
  | none => dflt
  | some s => if s = "" then dflt else s

/-- Stable insertion into a list sorted by the strict key order `lt`:
the new element goes after every existing element whose key is not
greater. -/
def stableInsert {α : Type} (lt : α → α → Bool) (x : α) : List α → List α
  | [] => [x]
  | y :: ys => if lt x y then x :: y :: ys else y :: stableInsert lt x ys

/-- Stable sort by the strict key order `lt`: the unique result of any
stable sorting algorithm, such as the one JavaScript
`Array.prototype.sort` implements. -/
def stableSortBy {α : Type} (lt : α → α → Bool) (l : List α) : List α :=
  l.foldl (fun acc x => stableInsert lt x acc) []

/-! ### JavaScript `Date` UTC semantics

Timestamps are `Int` epoch milliseconds.  `daysFromCivil`/`civilFromDays`
are the standard Gregorian conversions between a civil date (year,
1-based month, day) and a count of days since 1970-01-01; both are total.
`daysFromCivil` is linear in the day argument, which is exactly the
normalization JavaScript applies to out-of-range day arguments of
`Date.UTC` (e.g. `Date.UTC(y, 1, 30)` lands in March).  `Int`
division `/` is Euclidean division, which for the positive literal
divisors used here agrees with the floor division of the reference
algorithm. -/

def msPerDay : Int := 86400000

/-- Days since 1970-01-01 of the civil date `(y, m, d)`, `m` 1-based.
Total: out-of-range `d` shifts the result linearly (day overflow). -/
def daysFromCivil (y m d : Int) : Int :=
  let y2 : Int := if m ≤ 2 then y - 1 else y
  let era : Int := y2 / 400
  let yoe : Int := y2 - era * 400
  let mp : Int := (m + 9) % 12
  let doy : Int := (153 * mp + 2) / 5 + d - 1
  let doe : Int := yoe * 365 + yoe / 4 - yoe / 100 + doy
  era * 146097 + doe - 719468

/-- Civil date `(year, month, day)` (month 1-based) of a count of days
since 1970-01-01. -/
def civilFromDays (z : Int) : Int × Int × Int :=
  let z2 : Int := z + 719468
  let era : Int := z2 / 146097
  let doe : Int := z2 - era * 146097
  let yoe : Int := (doe - doe / 1460 + doe / 36524 - doe / 146096) / 365
  let y : Int := yoe + era * 400
  let doy : Int := doe - (365 * yoe + yoe / 4 - yoe / 100)
  let mp : Int := (5 * doy + 2) / 153
  let d : Int := doy - (153 * mp + 2) / 5 + 1
  let m : Int := if mp < 10 then mp + 3 else mp - 9
  (if m ≤ 2 then y + 1 else y, m, d)

/-- `Date.UTC(y, m, d)` in milliseconds, with `m` the 0-based JavaScript
month; month and day overflow are normalized exactly as JavaScript does. -/
def jsDateUTC (y m d : Int) : Int :=
  msPerDay * daysFromCivil (y + m / 12) (m % 12 + 1) d

/-- `Date.prototype.getUTCFullYear` of an epoch-millisecond timestamp. -/
def getUTCFullYear (t : Int) : Int := (civilFromDays (t / msPerDay)).1

/-- `Date.prototype.getUTCMonth` (0-based). -/
def getUTCMonth (t : Int) : Int := (civilFromDays (t / msPerDay)).2.1 - 1

/-- `Date.prototype.getUTCDate` (day of month, 1-based). -/
def getUTCDate (t : Int) : Int := (civilFromDays (t / msPerDay)).2.2


/-! ### Canonical core: `src/lib/smart-retry-core.js`

`decideLoanV2(features, now, config)` with the ordered rule cascade.
Date helpers: `nextQuincenaDate` and `immediateRetryDate` are from the same
file (lines 10–42).  The file's cascade also calls `standardRetryDate`
without defining it; the definition below is the one from the `part_002`
copy of `lib/smart-retry-core.js` (now + 4 days, normalized to 06:00 UTC),
the only definition of that name in the repository. -/

/-- Cascade outcome kind: `'STOP' | 'RETRY' | 'SCHEDULE'`. -/
inductive DecisionKind where
  | STOP
  | RETRY
  | SCHEDULE
  deriving DecidableEq, Repr

/-- `confidence` table of `DEFAULT_DECISION_CONFIG`. -/
structure Confidence where
  stopSettled : ℚ
  stopChargeback : ℚ
  stopByCustomer : ℚ
  stopHardDecline : ℚ
  stopPossibleError : ℚ
  stopZombieLimit : ℚ
  stopAttemptsLimit : ℚ
  stopKillBank : ℚ
  scheduleZombie : ℚ
  scheduleRiskAmount : ℚ
  scheduleStandardQuincena : ℚ
  retryMicroDebt : ℚ
  retryFresh : ℚ
  retryStandard : ℚ
  retryDefault : ℚ
  deriving DecidableEq, Repr

/-- Decision configuration (thresholds, bank lists, confidence table). -/
structure Config where
  microDebtThreshold : ℚ
  zombieDaysThreshold : ℚ
  maxAttempts : ℚ
  zombieMaxAttempts : ℚ
  freshDaysThreshold : ℚ
  highAmountThreshold : ℚ
  riskBanks : List String
  killBanks : List String
  confidence : Confidence
  deriving DecidableEq, Repr

/-- `DEFAULT_DECISION_CONFIG` from `src/lib/smart-retry-core.js`. -/
def DEFAULT_DECISION_CONFIG : Config :=
  { microDebtThreshold := 1000
    zombieDaysThreshold := 365
    maxAttempts := 12
    zombieMaxAttempts := 3
    freshDaysThreshold := 5
    highAmountThreshold := 5000
    riskBanks := ["AZTECA"]
    killBanks := ["MONTERREY"]
    confidence :=
      { stopSettled := 0.99
        stopChargeback := 0.95
        stopByCustomer := 0.9
        stopHardDecline := 0.9
        stopPossibleError := 0.75
        stopZombieLimit := 0.85
        stopAttemptsLimit := 0.85
        stopKillBank := 0.85
        scheduleZombie := 0.7
        scheduleRiskAmount := 0.7
        scheduleStandardQuincena := 0.6
        retryMicroDebt := 0.8
        retryFresh := 0.8
        retryStandard := 0.65
        retryDefault := 0.6 } }

/-- All fifteen confidence values of a confidence table, as a list. -/
def confidenceValues (c : Confidence) : List ℚ :=
  [c.stopSettled, c.stopChargeback, c.stopByCustomer, c.stopHardDecline,
   c.stopPossibleError, c.stopZombieLimit, c.stopAttemptsLimit, c.stopKillBank,
   c.scheduleZombie, c.scheduleRiskAmount, c.scheduleStandardQuincena,
   c.retryMicroDebt, c.retryFresh, c.retryStandard, c.retryDefault]

/-- The `features` object consumed by `decideLoanV2`.  `none` in a numeric
field models a missing or non-finite value (`Number.isFinite(x) ? x : 0`
coerces those to 0); `none` in a string field models an absent field. -/
structure Features where
  loan_id : String
  payment_method_bank : Option String
  total_amount_outstanding : Option ℚ
  overdue_days : Option ℚ
  intentos_ciclo_actual : Option ℚ
  last_req_status : Option String
  failed_message : Option String
  deriving DecidableEq, Repr

/-- `nextQuincenaDate(from)` of `src/lib/smart-retry-core.js` (lines 10–34):
day ≤ 15 → the 15th of the month; day ≤ 30 → day 30 of the month (no
clamping — `Date.UTC` overflow applies in shorter months); day > 30 → the
15th of the next month, rolling the year in December.  Result at 00:00 UTC. -/
def nextQuincenaDate (t : Int) : Int :=
  let year := getUTCFullYear t
  let month := getUTCMonth t
  let day := getUTCDate t
  if day ≤ 15 then jsDateUTC year month 15
  else if day ≤ 30 then jsDateUTC year month 30
  else if month + 1 > 11 then jsDateUTC (year + 1) 0 15
  else jsDateUTC year (month + 1) 15

/-- `immediateRetryDate(from)`: the same timestamp (lines 39–42). -/
def immediateRetryDate (t : Int) : Int := t

/-- `standardRetryDate(now)` from the `part_002` copy of
`lib/smart-retry-core.js`: now + 4 days, time-of-day set to 06:00 UTC. -/
def standardRetryDate (t : Int) : Int :=
  msPerDay * (t / msPerDay + 4) + 6 * 3600000

/-- The decision record produced by `decideLoanV2`; `next_attempt_date`
is an epoch-millisecond timestamp or `none` (JavaScript `null`). -/
structure Decision where
  loan_id : String
  decision : DecisionKind
  decision_reason : String
  next_attempt_date : Option Int
  confidence : ℚ
  deriving DecidableEq, Repr

/-- `String(features.payment_method_bank || '').toUpperCase()`. -/
def bankOf (f : Features) : String := jsToUpper (f.payment_method_bank.getD "")

/-- `String(features.failed_message || '').toLowerCase()`. -/
def msgOf (f : Features) : String := jsToLower (f.failed_message.getD "")

/-- `String(features.last_req_status || 'new').toLowerCase()`. -/
def lastStatusOf (f : Features) : String :=
  jsToLower (jsOrDefault f.last_req_status "new")

/-- `Number.isFinite(features.overdue_days) ? … : 0`. -/
def overdueOf (f : Features) : ℚ := f.overdue_days.getD 0

/-- `Number.isFinite(features.total_amount_outstanding) ? … : 0`. -/
def amountOf (f : Features) : ℚ := f.total_amount_outstanding.getD 0

/-- `Number.isFinite(features.intentos_ciclo_actual) ? … : 0`. -/
def attemptsOf (f : Features) : ℚ := f.intentos_ciclo_actual.getD 0

/-- The `isByCustomerOrder` message test.  The source lists both
`'cancelación del servicio'` and its `ó` escape, which denote the
same string, so each keyword appears once here. -/
def isByCustomerOrder (f : Features) : Bool :=
  jsIncludes (msgOf f) "por orden del cliente" ||
  jsIncludes (msgOf f) "cancelación del servicio" ||
  jsIncludes (msgOf f) "domiciliación dada de baja"

/-- The `isPossibleError` message test. -/
def isPossibleError (f : Features) : Bool :=
  jsIncludes (msgOf f) "cuenta inexistente" ||
  jsIncludes (msgOf f) "cuenta no pertenece al banco receptor"

/-- The `isHardDeclineGeneric` message test (no insufficient-funds
exclusion in this file). -/
def isHardDeclineGeneric (f : Features) : Bool :=
  jsIncludes (msgOf f) "cuenta cancelada" ||
  jsIncludes (msgOf f) "cuenta bloqueada" ||
  jsIncludes (msgOf f) "baja por oficina" ||
  jsIncludes (msgOf f) "cliente no tiene autorizado el servicio"

/-- `config.killBanks.some((b) => bank.includes(b))`. -/
def killBankHit (cfg : Config) (f : Features) : Bool :=
  cfg.killBanks.any (fun b => jsIncludes (bankOf f) b)

/-- `config.riskBanks.some((b) => bank.includes(b))`. -/
def riskBankHit (cfg : Config) (f : Features) : Bool :=
  cfg.riskBanks.any (fun b => jsIncludes (bankOf f) b)

/-- `decideLoanV2(features, now, config)` of `src/lib/smart-retry-core.js`
(lines 111–319): the ordered, short-circuiting rule cascade. -/
def decideLoanV2 (f : Features) (now : Int) (cfg : Config) : Decision :=
  if amountOf f ≤ 1 then
    ⟨f.loan_id, .STOP, "STOP: Deuda Saldada (Saldo $0)", none,
      cfg.confidence.stopSettled⟩
  else if lastStatusOf f = "chargeback" then
    ⟨f.loan_id, .STOP, "STOP: Riesgo Chargeback", none,
      cfg.confidence.stopChargeback⟩
  else if isByCustomerOrder f then
    ⟨f.loan_id, .STOP, "STOP: Por orden del cliente", none,
      cfg.confidence.stopByCustomer⟩
  else if isPossibleError f then
    ⟨f.loan_id, .STOP, "STOP: Posible error (Cuenta inválida)", none,
      cfg.confidence.stopPossibleError⟩
  else if isHardDeclineGeneric f then
    ⟨f.loan_id, .STOP, "STOP: Cuenta Inválida (Hard Decline)", none,
      cfg.confidence.stopHardDecline⟩
  else if killBankHit cfg f then
    ⟨f.loan_id, .STOP, "STOP: Banco Bloqueado", none,
      cfg.confidence.stopKillBank⟩
  else if overdueOf f > cfg.zombieDaysThreshold then
    if attemptsOf f ≥ cfg.zombieMaxAttempts then
      ⟨f.loan_id, .STOP, "STOP: Límite Antigüedad (>1 año)", none,
        cfg.confidence.stopZombieLimit⟩
    else
      ⟨f.loan_id, .SCHEDULE, "SCHEDULE: Solo Quincena (Zombie)",
        some (nextQuincenaDate now), cfg.confidence.scheduleZombie⟩
  else if attemptsOf f ≥ cfg.maxAttempts then
    ⟨f.loan_id, .STOP,
      "STOP: Máximo de Intentos (" ++ toString cfg.maxAttempts ++ ")", none,
      cfg.confidence.stopAttemptsLimit⟩
  else if amountOf f > 0 ∧ amountOf f < cfg.microDebtThreshold then
    ⟨f.loan_id, .RETRY, "RETRY: Inmediato (Micro-Deuda)",
      some (immediateRetryDate now), cfg.confidence.retryMicroDebt⟩
  else if overdueOf f ≤ cfg.freshDaysThreshold then
    ⟨f.loan_id, .RETRY, "RETRY: Inmediato (Fresca)",
      some (immediateRetryDate now), cfg.confidence.retryFresh⟩
  else if riskBankHit cfg f ∨ amountOf f > cfg.highAmountThreshold then
    ⟨f.loan_id, .SCHEDULE, "SCHEDULE: Próxima Quincena (Riesgo/Monto)",
      some (nextQuincenaDate now), cfg.confidence.scheduleRiskAmount⟩
  else if 6 ≤ overdueOf f ∧ overdueOf f ≤ 20 then
    ⟨f.loan_id, .RETRY, "RETRY: Estándar (Cada 4 días)",
      some (standardRetryDate now), cfg.confidence.retryStandard⟩
  else if overdueOf f > 20 then
    ⟨f.loan_id, .SCHEDULE, "SCHEDULE: Próxima Quincena",
      some (nextQuincenaDate now), cfg.confidence.scheduleStandardQuincena⟩
  else
    ⟨f.loan_id, .RETRY, "RETRY: Estándar",
      some (standardRetryDate now), cfg.confidence.retryDefault⟩

/-! ### Variant core: `src/unnamed/part_004`

`decideLoanV2(features, now)` with the documented message catalog: the
customer-order keywords are the full catalog phrases, and the generic
hard-decline bucket explicitly excludes `'insuficiencia de fondos'`.
Attempt limits use `attemptsForLimits`, which reads the raw cycle counter
as 0 whenever the last status is `'successful'`.  The output carries no
confidence field.  This file's `nextQuincenaDate` and `immediateRetryDate`
are textually identical to the canonical ones and are reused. -/

namespace PartFour

/-- `normalizeMsg`: `(msg || '').toLowerCase().trim()`. -/
def msgOf (f : Features) : String := jsTrim (jsToLower (f.failed_message.getD ""))

/-- `normalizeBank`: `(bank || '').toUpperCase()`. -/
def bankOf (f : Features) : String := jsToUpper (f.payment_method_bank.getD "")

/-- `String(features.last_req_status || 'new').toLowerCase()`. -/
def lastStatusOf (f : Features) : String :=
  jsToLower (jsOrDefault f.last_req_status "new")

/-- `Number(features.overdue_days ?? 0)`. -/
def overdueOf (f : Features) : ℚ := f.overdue_days.getD 0

/-- `Number(features.total_amount_outstanding ?? 0)`. -/
def amountOf (f : Features) : ℚ := f.total_amount_outstanding.getD 0

/-- `Number(features.intentos_ciclo_actual ?? 0) || 0`. -/
def attemptsRawOf (f : Features) : ℚ := f.intentos_ciclo_actual.getD 0

/-- `attemptsForLimits`: the raw attempt count, read as 0 when the last
status was `'successful'`. -/
def attemptsForLimits (f : Features) : ℚ :=
  if lastStatusOf f = "successful" then 0 else attemptsRawOf f

/-- `isInsuficienciaFondos`. -/
def isInsuficienciaFondos (f : Features) : Bool :=
  jsIncludes (msgOf f) "insuficiencia de fondos"

/-- `isOrdenCliente`. -/
def isOrdenCliente (f : Features) : Bool :=
  jsIncludes (msgOf f) "por orden del cliente: orden de no pagar a ese emisor" ||
  jsIncludes (msgOf f) "por orden del cliente: cancelación del servicio" ||
  jsIncludes (msgOf f) "domiciliación dada de baja"

/-- `isPosibleError`. -/
def isPosibleError (f : Features) : Bool :=
  jsIncludes (msgOf f) "cuenta inexistente" ||
  jsIncludes (msgOf f) "cuenta no pertenece al banco receptor"

/-- `isOtherHardDecline`: the generic hard-decline keywords, with the
insufficient-funds exclusion. -/
def isOtherHardDecline (f : Features) : Bool :=
  (jsIncludes (msgOf f) "cuenta cancelada" ||
   jsIncludes (msgOf f) "cuenta bloqueada" ||
   jsIncludes (msgOf f) "cliente no tiene autorizado el servicio" ||
   jsIncludes (msgOf f) "baja por oficina") &&
  !(isInsuficienciaFondos f)

/-- The decision record of this variant (no confidence field). -/
structure DecisionV4 where
  loan_id : String
  decision : DecisionKind
  decision_reason : String
  next_attempt_date : Option Int
  deriving DecidableEq, Repr

/-- `decideLoanV2(features, now)` of `src/unnamed/part_004` (lines 75–282). -/
def decideLoanV2 (f : Features) (now : Int) : DecisionV4 :=
  if amountOf f ≤ 1 then
    ⟨f.loan_id, .STOP, "STOP: Deuda Saldada (Saldo $0)", none⟩
  else if lastStatusOf f = "chargeback" then
    ⟨f.loan_id, .STOP, "STOP: Riesgo Chargeback", none⟩
  else if isOrdenCliente f then
    ⟨f.loan_id, .STOP, "STOP: Por orden del cliente", none⟩
  else if isPosibleError f then
    ⟨f.loan_id, .STOP, "STOP: Posible error (Cuenta inválida)", none⟩
  else if isOtherHardDecline f then
    ⟨f.loan_id, .STOP, "STOP: Cuenta Inválida (Hard Decline)", none⟩
  else if jsIncludes (bankOf f) "MONTERREY" then
    ⟨f.loan_id, .STOP, "STOP: Banco Bloqueado", none⟩
  else if overdueOf f > 365 then
    if attemptsForLimits f ≥ 3 then
      ⟨f.loan_id, .STOP, "STOP: Límite Antigüedad (>1 año)", none⟩
    else
      ⟨f.loan_id, .SCHEDULE, "SCHEDULE: Solo Quincena (Zombie)",
        some (nextQuincenaDate now)⟩
  else if attemptsForLimits f ≥ 12 then
    ⟨f.loan_id, .STOP, "STOP: Máximo de Intentos (12)", none⟩
  else if amountOf f < 1000 then
    ⟨f.loan_id, .RETRY, "RETRY: Inmediato (Micro-Deuda)",
      some (immediateRetryDate now)⟩
  else if overdueOf f ≤ 5 then
    ⟨f.loan_id, .RETRY, "RETRY: Inmediato (Fresca)",
      some (immediateRetryDate now)⟩
  else if jsIncludes (bankOf f) "AZTECA" ∨ amountOf f > 5000 then
    ⟨f.loan_id, .SCHEDULE, "SCHEDULE: Próxima Quincena (Riesgo/Monto)",
      some (nextQuincenaDate now)⟩
  else if 6 ≤ overdueOf f ∧ overdueOf f ≤ 20 then
    ⟨f.loan_id, .RETRY, "RETRY: Estándar (Cada 4 días)",
      some (immediateRetryDate now)⟩
  else if overdueOf f > 20 then
    ⟨f.loan_id, .SCHEDULE, "SCHEDULE: Próxima Quincena",
      some (nextQuincenaDate now)⟩
  else
    ⟨f.loan_id, .RETRY, "RETRY: Estándar", some (immediateRetryDate now)⟩

end PartFour

/-! ### History summarizer: `src/api/decide.js`, `buildHistoryFeaturesForLoan`

Reduces one loan's transaction rows (sorted ascending by `created_at`)
to `{ last_req_status, failed_message, intentos_ciclo_actual }`:
a successful transaction resets the counter and clears the message,
any other transaction increments the counter; a `chargeback_at`
timestamp forces the final status to `'chargeback'`. -/

/-- One transaction row as consumed by `buildHistoryFeaturesForLoan`. -/
structure TxRow where
  status : Option String
  failed_message : Option String
  created_at : Int
  chargeback_at : Option Int
  deriving DecidableEq, Repr

/-- The summarizer output. -/
structure HistoryFeatures where
  last_req_status : String
  failed_message : String
  intentos_ciclo_actual : Nat
  deriving DecidableEq, Repr

/-- One iteration of the summarizer loop. -/
def buildHistoryStep (st : HistoryFeatures) (tx : TxRow) : HistoryFeatures :=
  let status := jsToLower (tx.status.getD "")
  let st1 : HistoryFeatures :=
    if status = "successful" then
      { last_req_status := status, failed_message := "",
        intentos_ciclo_actual := 0 }
    else
      { last_req_status := status
        failed_message :=
          match tx.failed_message with
          | some s => if s = "" then st.failed_message else s
          | none => st.failed_message
        intentos_ciclo_actual := st.intentos_ciclo_actual + 1 }
  if tx.chargeback_at.isSome then
    { st1 with last_req_status := "chargeback" }
  else st1

/-- `[...rows].sort((a, b) => new Date(a.created_at) - new Date(b.created_at))`
(stable). -/
def sortTxRows (rows : List TxRow) : List TxRow :=
  stableSortBy (fun a b => decide (a.created_at < b.created_at)) rows

/-- `buildHistoryFeaturesForLoan(rows)` of `src/api/decide.js`
(lines 428–473). -/
def buildHistoryFeaturesForLoan (rows : List TxRow) : HistoryFeatures :=
  if rows.isEmpty then ⟨"new", "", 0⟩
  else (sortTxRows rows).foldl buildHistoryStep ⟨"new", "", 0⟩

/-- Specification-side counter: the number of transactions strictly after
the last successful one (the whole list when no transaction succeeded). -/
def attemptsSinceLastSuccess (rows : List TxRow) : Nat :=
  (rows.reverse.takeWhile
    (fun tx => decide (jsToLower (tx.status.getD "") ≠ "successful"))).length

/-- A non-empty (truthy) string, else the default:
`s || dflt` for a plain string. -/
def jsFalsyOr (s dflt : String) : String := if s = "" then dflt else s

/-! ### Batch engine: `src/unnamed/part_003`

`decideRetries(loans, txs, config)`: groups transactions by trimmed
`loan_id`, summarizes each group chronologically, and maps the rule
cascade `applyRulesForLoan` over the loans.  The only configuration field
this variant reads is `config.today`, modelled as the `today` parameter
(absent it falls back to the wall clock, outside the pure model). -/

namespace PartThree

/-- A transaction record. -/
structure TxRec where
  loan_id : Option String
  created_at : Option Int
  completed_at : Option Int
  status : Option String
  failed_message : Option String
  failed_reason : Option String
  deriving DecidableEq, Repr

/-- A loan record. -/
structure LoanRec where
  loan_id : Option String
  payment_method_bank : Option String
  total_amount_outstanding : Option ℚ
  loan_amount : Option ℚ
  overdue_days : Option ℚ
  deriving DecidableEq, Repr

/-- `normalizeStatus`: empty for a falsy status, else trimmed and
lower-cased. -/
def normalizeStatus (s : Option String) : String :=
  match s with
  | none => ""
  | some s => if s = "" then "" else jsToLower (jsTrim s)

/-- `tx.loan_id != null ? String(tx.loan_id).trim() : ''`. -/
def txLoanId (t : TxRec) : String :=
  match t.loan_id with
  | some s => jsTrim s
  | none => ""

/-- Sort key `new Date(a.created_at || a.completed_at || 0).getTime()`. -/
def txSortKey (t : TxRec) : Int :=
  ((t.created_at).orElse (fun _ => t.completed_at)).getD 0

/-- `(tx.failed_message || tx.failed_reason || '')`. -/
def txMsgRaw (t : TxRec) : String :=
  match t.failed_message with
  | some s => if s = "" then jsOrDefault t.failed_reason "" else s
  | none => jsOrDefault t.failed_reason ""

/-- The summary of one loan's history. -/
structure Summary where
  intentos_ciclo_actual : Nat
  last_req_status : String
  failed_message : String
  deriving DecidableEq, Repr

/-- The state used for a loan with no (usable) history. -/
def defaultSummary : Summary := ⟨0, "new", "none"⟩

/-- Accumulator of the summarizer loop. -/
structure SumState where
  prevStatus : Option String
  intentos : Nat
  lastStatus : String
  lastFailedMessage : String
  deriving DecidableEq, Repr

/-- One iteration of `summarizeHistoryByLoan`'s loop: a new cycle starts
when there was no previous transaction or the previous one succeeded. -/
def summarizeStep (st : SumState) (tx : TxRec) : SumState :=
  let status := normalizeStatus tx.status
  let msg := jsToLower (txMsgRaw tx)
  let isNewCycle := st.prevStatus = none ∨ st.prevStatus = some "successful"
  let intentos0 := if isNewCycle then 0 else st.intentos
  { prevStatus := some status
    intentos := intentos0 + 1
    lastStatus := if status = "" then st.lastStatus else status
    lastFailedMessage := if msg = "" then st.lastFailedMessage else msg }

/-- Summary of one loan's transaction list (chronological, stable sort). -/
def summarizeTxs (txs : List TxRec) : Summary :=
  let sorted := stableSortBy (fun a b => decide (txSortKey a < txSortKey b)) txs
  let st := sorted.foldl summarizeStep ⟨none, 0, "new", "none"⟩
  ⟨st.intentos, st.lastStatus, st.lastFailedMessage⟩

/-- The state `decideRetries` uses for a loan id:
`(loanId && summaries[loanId]) || default`. -/
def stateFor (txs : List TxRec) (loanId : String) : Summary :=
  if loanId = "" then defaultSummary
  else
    let mine := txs.filter (fun t => decide (txLoanId t = loanId))
    if mine.isEmpty then defaultSummary else summarizeTxs mine

/-- `nextQuincenaUtc(today)` (lines 74–85): the 15th or the 30th of the
current month, the target day clamped to the month's last day. -/
def nextQuincenaUtc (today : Int) : Int :=
  let year := getUTCFullYear today
  let month := getUTCMonth today
  let day := getUTCDate today
  let targetDay : Int := if day ≤ 15 then 15 else 30
  let lastDayOfMonth := getUTCDate (jsDateUTC year (month + 1) 0)
  let targetDay := if targetDay > lastDayOfMonth then lastDayOfMonth else targetDay
  jsDateUTC year month targetDay

/-- `startOfDayUtc(date)`. -/
def startOfDayUtc (t : Int) : Int :=
  jsDateUTC (getUTCFullYear t) (getUTCMonth t) (getUTCDate t)

/-- The record returned by `applyRulesForLoan`. -/
structure RuleResult where
  decision : DecisionKind
  decision_reason : String
  reason : String
  confidence : ℚ
  score : ℚ
  proposed_date : Option Int
  should_retry : Bool
  deriving DecidableEq, Repr

/-- `buildDecision(decisionType, label)` (lines 116–138), with the
captured `quincenaDate` and `immediateDate` passed explicitly. -/
def buildDecision (dt : DecisionKind) (label : String)
    (quincena immediate : Int) : RuleResult :=
  let confidence : ℚ := if dt = .STOP then 0.9 else if dt = .RETRY then 0.75 else 0.6
  let proposed : Option Int :=
    if dt = .RETRY then some immediate
    else if dt = .SCHEDULE then some quincena
    else none
  ⟨dt, label, label, confidence, confidence, proposed, decide (dt ≠ .STOP)⟩

/-- `fatalKeywords` of `applyRulesForLoan`. -/
def fatalKeywords : List String :=
  ["cancelada", "inexistente", "fallecimiento", "fraude", "baja"]

/-- Bank of a loan record, upper-cased. -/
def loanBankOf (loan : LoanRec) : String :=
  jsToUpper (loan.payment_method_bank.getD "")

/-- `montoPendiente`: outstanding amount, falling back to `loan_amount`,
then 0. -/
def montoPendiente (loan : LoanRec) : ℚ :=
  match loan.total_amount_outstanding with
  | some q => q
  | none => loan.loan_amount.getD 0

/-- `diasMora`: overdue days, defaulting to 0. -/
def diasMora (loan : LoanRec) : ℚ := loan.overdue_days.getD 0

/-- `applyRulesForLoan(loan, state, today)` (lines 93–194). -/
def applyRulesForLoan (loan : LoanRec) (state : Summary) (today : Int) :
    RuleResult :=
  let bank := loanBankOf loan
  let msg := jsToLower state.failed_message
  let lastStatus := jsToLower (jsFalsyOr state.last_req_status "new")
  let intentos := state.intentos_ciclo_actual
  let quincenaDate := nextQuincenaUtc today
  let immediateDate := startOfDayUtc today
  if montoPendiente loan ≤ 1 then
    buildDecision .STOP "STOP: Deuda Saldada (Saldo $0)" quincenaDate immediateDate
  else if lastStatus = "chargeback" then
    buildDecision .STOP "STOP: Riesgo Chargeback" quincenaDate immediateDate
  else if fatalKeywords.any (fun k => jsIncludes msg k) then
    buildDecision .STOP "STOP: Cuenta Inválida (Hard Decline)" quincenaDate immediateDate
  else if jsIncludes bank "MONTERREY" then
    buildDecision .STOP "STOP: Banco Bloqueado" quincenaDate immediateDate
  else if diasMora loan > 365 then
    if intentos ≥ 3 then
      buildDecision .STOP "STOP: Límite Antigüedad (>1 año)" quincenaDate immediateDate
    else
      buildDecision .SCHEDULE "SCHEDULE: Solo Quincena (Zombie)" quincenaDate immediateDate
  else if intentos ≥ 12 then
    buildDecision .STOP "STOP: Máximo de Intentos (12)" quincenaDate immediateDate
  else if montoPendiente loan < 1000 then
    buildDecision .RETRY "RETRY: Inmediato (Micro-Deuda)" quincenaDate immediateDate
  else if diasMora loan ≤ 5 then
    buildDecision .RETRY "RETRY: Inmediato (Fresca)" quincenaDate immediateDate
  else if jsIncludes bank "AZTECA" ∨ montoPendiente loan > 5000 then
    buildDecision .SCHEDULE "SCHEDULE: Próxima Quincena (Riesgo/Monto)" quincenaDate immediateDate
  else if 6 ≤ diasMora loan ∧ diasMora loan ≤ 20 then
    buildDecision .RETRY "RETRY: Estándar (Cada 4 días)" quincenaDate immediateDate
  else if diasMora loan > 20 then
    buildDecision .SCHEDULE "SCHEDULE: Próxima Quincena" quincenaDate immediateDate
  else
    buildDecision .RETRY "RETRY: Estándar" quincenaDate immediateDate

/-- `loan.loan_id != null ? String(loan.loan_id).trim() : ''`. -/
def loanIdOf (loan : LoanRec) : String :=
  match loan.loan_id with
  | some s => jsTrim s
  | none => ""

/-- The per-loan debug `features` object. -/
structure FeatView where
  payment_method_bank : Option String
  total_amount_outstanding : ℚ
  overdue_days : ℚ
  intentos_ciclo_actual : Nat
  last_req_status : String
  failed_message : String
  deriving DecidableEq, Repr

/-- One element of the `decideRetries` output. -/
structure OutDecision where
  loan_id : String
  decision : DecisionKind
  decision_reason : String
  reason : String
  confidence : ℚ
  score : ℚ
  proposed_date : Option Int
  should_retry : Bool
  features : FeatView
  deriving DecidableEq, Repr

/-- Builds one output record from a loan and an explicit state. -/
def mkOutDecision (loan : LoanRec) (state : Summary) (today : Int) :
    OutDecision :=
  let r := applyRulesForLoan loan state today
  { loan_id := loanIdOf loan
    decision := r.decision
    decision_reason := r.decision_reason
    reason := r.reason
    confidence := r.confidence
    score := r.score
    proposed_date := r.proposed_date
    should_retry := r.should_retry
    features :=
      { payment_method_bank := loan.payment_method_bank
        total_amount_outstanding := montoPendiente loan
        overdue_days := diasMora loan
        intentos_ciclo_actual := state.intentos_ciclo_actual
        last_req_status := state.last_req_status
        failed_message := state.failed_message } }

/-- The body of `decideRetries`' map, for a single loan. -/
def decideOneLoan (txs : List TxRec) (today : Int) (loan : LoanRec) :
    OutDecision :=
  mkOutDecision loan (stateFor txs (loanIdOf loan)) today

/-- `decideRetries(loans, txs, config)` (lines 196–234). -/
def decideRetries (loans : List LoanRec) (txs : List TxRec) (today : Int) :
    List OutDecision :=
  loans.map (decideOneLoan txs today)

end PartThree

/-! ### Scheduling tail: `src/unnamed/part_001`

`next15or30(fromDate)` and the minimum-gap enforcement block of
`computeForLoan` (lines 186–193).  `addDays` adds whole UTC days, which in
epoch milliseconds is exact multiplication.  `minGap` is the resolved
`config.minDaysBetweenAttempts || 1`. -/

namespace PartOne

/-- `addDays(d, days)`. -/
def addDays (t : Int) (n : Int) : Int := t + n * msPerDay

/-- `next15or30(fromDate)` (lines 57–67). -/
def next15or30 (fromDate : Int) : Int :=
  let y := getUTCFullYear fromDate
  let m := getUTCMonth fromDate
  let d := getUTCDate fromDate
  let candidate15 := jsDateUTC y m 15
  let candidate30 := jsDateUTC y m 30
  if d < 15 ∧ candidate15 > fromDate then candidate15
  else if d < 30 ∧ candidate30 > fromDate then candidate30
  else jsDateUTC y (m + 1) 15

/-- The minimum-gap enforcement of `computeForLoan` (lines 186–193):
floor the proposed date at `last_attempt + minGap` days, then, if the
result is not strictly after `now`, move to `next15or30(now + 1 day)`. -/
def enforceMinGap (lastTs : Option Int) (minGap : Int) (now proposed : Int) :
    Int :=
  let floored :=
    match lastTs with
    | some ts => if proposed < addDays ts minGap then addDays ts minGap else proposed
    | none => proposed
  if floored ≤ now then next15or30 (addDays now 1) else floored

end PartOne

/-! ### Calendar lemmas -/

/-- Bounds for the year-of-era formula of `civilFromDays`: the computed
year index lies in `[0, 400)`, the days that precede it do not exceed the
day-of-era, and at most 365 days of the day-of-era remain after it. -/
lemma hinnant_yoe_facts (doe yoe : Int) (h0 : 0 ≤ doe) (h1 : doe < 146097)
    (hy : yoe = (doe - doe / 1460 + doe / 36524 - doe / 146096) / 365) :
    0 ≤ yoe ∧ yoe < 400 ∧ 365 * yoe + yoe / 4 - yoe / 100 ≤ doe ∧
      doe - (365 * yoe + yoe / 4 - yoe / 100) ≤ 365 := by
  subst hy
  refine ⟨by omega, by omega, ?_, ?_⟩
  · have hsplit : doe < 36524 ∨ (36524 ≤ doe ∧ doe < 73048) ∨
        (73048 ≤ doe ∧ doe < 109572) ∨ (109572 ≤ doe ∧ doe < 146096) ∨
        doe = 146096 := by omega
    rcases hsplit with h3 | h3 | h3 | h3 | h3
    · have hf : doe / 36524 = 0 := by omega
      have hg : doe / 146096 = 0 := by omega
      rw [hf, hg]
      have hd : (doe - doe / 1460 + 0 - 0) / 365 / 100 = 0 := by omega
      rw [hd]
      omega
    · have hf : doe / 36524 = 1 := by omega
      have hg : doe / 146096 = 0 := by omega
      rw [hf, hg]
      have hd : (doe - doe / 1460 + 1 - 0) / 365 / 100 = 1 := by omega
      rw [hd]
      omega
    · have hf : doe / 36524 = 2 := by omega
      have hg : doe / 146096 = 0 := by omega
      rw [hf, hg]
      have hd : (doe - doe / 1460 + 2 - 0) / 365 / 100 = 2 := by omega
      rw [hd]
      omega
    · have hf : doe / 36524 = 3 := by omega
      have hg : doe / 146096 = 0 := by omega
      rw [hf, hg]
      have hd : (doe - doe / 1460 + 3 - 0) / 365 / 100 = 3 := by omega
      rw [hd]
      omega
    · subst h3
      decide
  · have hsplit : doe < 36524 ∨ (36524 ≤ doe ∧ doe < 73048) ∨
        (73048 ≤ doe ∧ doe < 109572) ∨ (109572 ≤ doe ∧ doe < 146096) ∨
        doe = 146096 := by omega
    rcases hsplit with h3 | h3 | h3 | h3 | h3 <;> omega

/-- Assembly of the round trip at the era level, with every intermediate
value of `civilFromDays` named: reconstructing the day count from the
produced civil date recovers the day count, the month lies in `[1, 12]`,
the day in `[1, 31]`, and when the day is 31 the 15th of the following
month lies exactly 15 days later. -/
lemma civil_inner (era doe yoe doy mp d m y : Int)
    (h0 : 0 ≤ doe) (h1 : doe < 146097)
    (hyoe : yoe = (doe - doe / 1460 + doe / 36524 - doe / 146096) / 365)
    (hdoy : doy = doe - (365 * yoe + yoe / 4 - yoe / 100))
    (hmp : mp = (5 * doy + 2) / 153)
    (hd : d = doy - (153 * mp + 2) / 5 + 1)
    (hm : m = if mp < 10 then mp + 3 else mp - 9)
    (hy : y = if m ≤ 2 then yoe + era * 400 + 1 else yoe + era * 400) :
    daysFromCivil y m d = era * 146097 + doe - 719468 ∧
      1 ≤ m ∧ m ≤ 12 ∧ 1 ≤ d ∧ d ≤ 31 ∧
      (d = 31 →
        daysFromCivil (if m = 12 then y + 1 else y) (if m = 12 then 1 else m + 1) 15
          = era * 146097 + doe - 719468 + 15) := by
  obtain ⟨hy0, hy1, hcum, hdoy365⟩ := hinnant_yoe_facts doe yoe h0 h1 hyoe
  have hdoy0 : 0 ≤ doy := by omega
  have hdoy' : doy ≤ 365 := by omega
  have hmp0 : 0 ≤ mp := by omega
  have hmp1 : mp < 12 := by omega
  have hm1 : 1 ≤ m := by omega
  have hm12 : m ≤ 12 := by omega
  have hd1 : 1 ≤ d := by omega
  have hd31 : d ≤ 31 := by omega
  refine ⟨?_, hm1, hm12, hd1, hd31, ?_⟩
  · by_cases hc1 : mp < 10
    · have hm' : m = mp + 3 := by rw [hm, if_pos hc1]
      have hmle : ¬ (m ≤ 2) := by omega
      have hy' : y = yoe + era * 400 := by rw [hy, if_neg hmle]
      unfold daysFromCivil
      dsimp only
      rw [if_neg hmle]
      have hmod : (m + 9) % 12 = mp := by omega
      have hdiv : y / 400 = era := by omega
      rw [hmod, hdiv]
      have hyoe2 : y - era * 400 = yoe := by omega
      rw [hyoe2]
      omega
    · have hm' : m = mp - 9 := by rw [hm, if_neg hc1]
      have hmle : m ≤ 2 := by omega
      have hy' : y = yoe + era * 400 + 1 := by rw [hy, if_pos hmle]
      unfold daysFromCivil
      dsimp only
      rw [if_pos hmle]
      have hmod : (m + 9) % 12 = mp := by omega
      have hdiv : (y - 1) / 400 = era := by omega
      rw [hmod, hdiv]
      have hyoe2 : y - 1 - era * 400 = yoe := by omega
      rw [hyoe2]
      omega
  · intro h31
    by_cases hc1 : mp < 10
    · have hm' : m = mp + 3 := by rw [hm, if_pos hc1]
      have hmle : ¬ (m ≤ 2) := by omega
      have hy' : y = yoe + era * 400 := by rw [hy, if_neg hmle]
      by_cases hc2 : m = 12
      · rw [if_pos hc2, if_pos hc2]
        unfold daysFromCivil
        dsimp only
        rw [if_pos (by omega : (1 : Int) ≤ 2)]
        have hdiv : (y + 1 - 1) / 400 = era := by omega
        rw [hdiv]
        have hyoe2 : y + 1 - 1 - era * 400 = yoe := by omega
        rw [hyoe2]
        omega
      · rw [if_neg hc2, if_neg hc2]
        unfold daysFromCivil
        dsimp only
        rw [if_neg (by omega : ¬ (m + 1 ≤ 2))]
        have hmod : (m + 1 + 9) % 12 = mp + 1 := by omega
        have hdiv : y / 400 = era := by omega
        rw [hmod, hdiv]
        have hyoe2 : y - era * 400 = yoe := by omega
        rw [hyoe2]
        omega
    · have hm' : m = mp - 9 := by rw [hm, if_neg hc1]
      have hmle : m ≤ 2 := by omega
      have hy' : y = yoe + era * 400 + 1 := by rw [hy, if_pos hmle]
      have hc2 : ¬ (m = 12) := by omega
      rw [if_neg hc2, if_neg hc2]
      unfold daysFromCivil
      dsimp only
      by_cases hc3 : m + 1 ≤ 2
      · rw [if_pos hc3]
        have hmod : (m + 1 + 9) % 12 = mp + 1 := by omega
        have hdiv : (y - 1) / 400 = era := by omega
        rw [hmod, hdiv]
        have hyoe2 : y - 1 - era * 400 = yoe := by omega
        rw [hyoe2]
        omega
      · rw [if_neg hc3]
        omega

/-- Full round trip: rebuilding the day count from the civil date returned
by `civilFromDays` is the identity, the civil date is valid (month in
`[1, 12]`, day in `[1, 31]`), and a day-31 date rolls to the 15th of the
next month exactly 15 days later. -/
theorem civilFromDays_spec (z : Int) :
    daysFromCivil (civilFromDays z).1 (civilFromDays z).2.1 (civilFromDays z).2.2 = z ∧
      1 ≤ (civilFromDays z).2.1 ∧ (civilFromDays z).2.1 ≤ 12 ∧
      1 ≤ (civilFromDays z).2.2 ∧ (civilFromDays z).2.2 ≤ 31 ∧
      ((civilFromDays z).2.2 = 31 →
        daysFromCivil
          (if (civilFromDays z).2.1 = 12 then (civilFromDays z).1 + 1 else (civilFromDays z).1)
          (if (civilFromDays z).2.1 = 12 then 1 else (civilFromDays z).2.1 + 1) 15
          = z + 15) := by
  have h := civil_inner ((z + 719468) / 146097)
      (z + 719468 - (z + 719468) / 146097 * 146097)
      ((z + 719468 - (z + 719468) / 146097 * 146097 -
          (z + 719468 - (z + 719468) / 146097 * 146097) / 1460 +
          (z + 719468 - (z + 719468) / 146097 * 146097) / 36524 -
          (z + 719468 - (z + 719468) / 146097 * 146097) / 146096) / 365)
      _ _ _ _ _ (by omega) (by omega) rfl rfl rfl rfl rfl rfl
  have hz : (z + 719468) / 146097 * 146097 +
      (z + 719468 - (z + 719468) / 146097 * 146097) - 719468 = z := by omega
  rw [hz] at h
  exact h

/-- `daysFromCivil` is linear in the day argument: shifting the day shifts
the day count by the same amount (JavaScript day overflow). -/
lemma daysFromCivil_day_shift (y m d d' : Int) :
    daysFromCivil y m d' = daysFromCivil y m d + (d' - d) := by
  unfold daysFromCivil
  dsimp only
  split <;> omega

/-! ### Helper lemmas for the history summarizer -/

/-- `takeWhile` keeps the whole list when the predicate holds everywhere. -/
lemma takeWhile_of_all {α : Type} (p : α → Bool) :
    ∀ l : List α, l.all p = true → l.takeWhile p = l := by
  intro l h
  induction l with
  | nil => rfl
  | cons x xs ih =>
    simp only [List.all_cons, Bool.and_eq_true] at h
    simp [List.takeWhile_cons, h.1, ih h.2]

/-- The summarizer's counter after folding a transaction list: the list
length added to the start value when no transaction succeeded, otherwise
the number of transactions after the last success. -/
lemma foldl_buildHistoryStep_intentos (l : List TxRow) :
    ∀ st : HistoryFeatures,
      (l.foldl buildHistoryStep st).intentos_ciclo_actual =
        if l.all (fun tx => decide (jsToLower (tx.status.getD "") ≠ "successful"))
        then st.intentos_ciclo_actual + l.length
        else attemptsSinceLastSuccess l := by
  induction l using List.reverseRecOn with
  | nil =>
    intro st
    simp [attemptsSinceLastSuccess]
  | append_singleton l tx ih =>
    intro st
    rw [List.foldl_append]
    simp only [List.foldl_cons, List.foldl_nil]
    by_cases hs : jsToLower (tx.status.getD "") = "successful"
    · have h1 : ∀ s : HistoryFeatures,
          (buildHistoryStep s tx).intentos_ciclo_actual = 0 := by
        intro s
        unfold buildHistoryStep
        dsimp only
        rw [if_pos hs]
        by_cases hc : tx.chargeback_at.isSome = true
        · rw [if_pos hc]
        · rw [if_neg hc]
      rw [h1]
      rw [if_neg (by simp [List.all_append, hs])]
      unfold attemptsSinceLastSuccess
      rw [List.reverse_append]
      simp [hs]
    · have h1 : ∀ s : HistoryFeatures,
          (buildHistoryStep s tx).intentos_ciclo_actual =
            s.intentos_ciclo_actual + 1 := by
        intro s
        unfold buildHistoryStep
        dsimp only
        rw [if_neg hs]
        by_cases hc : tx.chargeback_at.isSome = true
        · rw [if_pos hc]
        · rw [if_neg hc]
      rw [h1, ih st]
      by_cases ha : l.all
          (fun tx => decide (jsToLower (tx.status.getD "") ≠ "successful")) = true
      · have hall : (l ++ [tx]).all
            (fun tx => decide (jsToLower (tx.status.getD "") ≠ "successful")) = true := by
          rw [List.all_append, ha]
          simp [hs]
        rw [if_pos ha, if_pos hall]
        simp only [List.length_append, List.length_cons, List.length_nil]
        omega
      · have ha' : l.all
            (fun tx => decide (jsToLower (tx.status.getD "") ≠ "successful")) = false := by
          cases hb : l.all
              (fun tx => decide (jsToLower (tx.status.getD "") ≠ "successful")) with
          | true => exact absurd hb ha
          | false => rfl
        have hne : ¬ ((l ++ [tx]).all
            (fun tx => decide (jsToLower (tx.status.getD "") ≠ "successful")) = true) := by
          rw [List.all_append, ha']
          simp
        rw [if_neg ha, if_neg hne]
        unfold attemptsSinceLastSuccess
        rw [List.reverse_append]
        simp [hs]

/-! ### Claim theorems -/

/-- Claim C3: the history summarizer produces `intentos_ciclo_actual`
equal to the number of transactions after (and excluding) the last
successful one in the chronologically sorted history — 0 for an empty
history — and the part_004 cascade reads the counter as 0 whenever the
last status is `'successful'`: its outcome does not depend on the raw
counter at all in that case. -/
theorem c3_attempts_in_cycle :
    (∀ rows : List TxRow,
      (buildHistoryFeaturesForLoan rows).intentos_ciclo_actual =
        attemptsSinceLastSuccess (sortTxRows rows)) ∧
    (∀ (f : Features) (now : Int) (a b : Option ℚ),
      PartFour.lastStatusOf f = "successful" →
      PartFour.decideLoanV2 { f with intentos_ciclo_actual := a } now =
        PartFour.decideLoanV2 { f with intentos_ciclo_actual := b } now) := by
  constructor
  · intro rows
    unfold buildHistoryFeaturesForLoan
    by_cases he : rows.isEmpty = true
    · rw [if_pos he]
      have hrows : rows = [] := by
        cases rows with
        | nil => rfl
        | cons x xs => simp [List.isEmpty] at he
      subst hrows
      rfl
    · rw [if_neg he]
      rw [foldl_buildHistoryStep_intentos]
      by_cases ha : (sortTxRows rows).all
          (fun tx => decide (jsToLower (tx.status.getD "") ≠ "successful")) = true
      · rw [if_pos ha]
        have hlen : attemptsSinceLastSuccess (sortTxRows rows) =
            (sortTxRows rows).length := by
          unfold attemptsSinceLastSuccess
          rw [takeWhile_of_all _ _ (by simpa using ha)]
          simp
        rw [hlen]
        simp
      · rw [if_neg ha]
  · intro f now a b h
    have ha' : PartFour.lastStatusOf { f with intentos_ciclo_actual := a } =
        "successful" := h
    have hb' : PartFour.lastStatusOf { f with intentos_ciclo_actual := b } =
        "successful" := h
    have hA : PartFour.attemptsForLimits { f with intentos_ciclo_actual := a } = 0 := by
      unfold PartFour.attemptsForLimits
      rw [if_pos ha']
    have hB : PartFour.attemptsForLimits { f with intentos_ciclo_actual := b } = 0 := by
      unfold PartFour.attemptsForLimits
      rw [if_pos hb']
    unfold PartFour.decideLoanV2
    rw [hA, hB]
    rfl

/-- Witness for C3: three sorted transactions (failed, successful, failed)
summarize to one attempt in the current cycle; and with a successful last
status, the part_004 cascade gives the same decision for raw counters 3
and 100. -/
theorem c3_attempts_in_cycle_witness :
    (buildHistoryFeaturesForLoan
        [{ status := some "failed", failed_message := some "x", created_at := 1,
           chargeback_at := none },
         { status := some "successful", failed_message := none, created_at := 2,
           chargeback_at := none },
         { status := some "failed", failed_message := some "y", created_at := 3,
           chargeback_at := none }]).intentos_ciclo_actual =
      attemptsSinceLastSuccess (sortTxRows
        [{ status := some "failed", failed_message := some "x", created_at := 1,
           chargeback_at := none },
         { status := some "successful", failed_message := none, created_at := 2,
           chargeback_at := none },
         { status := some "failed", failed_message := some "y", created_at := 3,
           chargeback_at := none }]) ∧
    PartFour.lastStatusOf
        { loan_id := "W3", payment_method_bank := none,
          total_amount_outstanding := some 2000, overdue_days := some 400,
          intentos_ciclo_actual := none, last_req_status := some "successful",
          failed_message := none } = "successful" ∧
    PartFour.decideLoanV2
        { loan_id := "W3", payment_method_bank := none,
          total_amount_outstanding := some 2000, overdue_days := some 400,
          intentos_ciclo_actual := some 3, last_req_status := some "successful",
          failed_message := none } 0 =
      PartFour.decideLoanV2
        { loan_id := "W3", payment_method_bank := none,
          total_amount_outstanding := some 2000, overdue_days := some 400,
          intentos_ciclo_actual := some 100, last_req_status := some "successful",
          failed_message := none } 0 :=
  ⟨c3_attempts_in_cycle.1 _, by decide,
   c3_attempts_in_cycle.2
     { loan_id := "W3", payment_method_bank := none,
       total_amount_outstanding := some 2000, overdue_days := some 400,
       intentos_ciclo_actual := none, last_req_status := some "successful",
       failed_message := none } 0 (some 3) (some 100) (by decide)⟩

/-- Counterexample for C4: the spec scenario loan L2 has no
`total_amount_outstanding`, which is coerced to 0, so the settled rule —
evaluated before the zombie rule — fires: part_003's `decideRetries` on L2
with three failed transactions stops with the settled reason, not the
age-limit reason. -/
theorem c4_counterexample :
    (PartThree.decideRetries
        [{ loan_id := some "L2", payment_method_bank := none,
           total_amount_outstanding := none, loan_amount := none,
           overdue_days := some 400 }]
        [{ loan_id := some "L2", created_at := some 1, completed_at := none,
           status := some "failed", failed_message := none, failed_reason := none },
         { loan_id := some "L2", created_at := some 2, completed_at := none,
           status := some "failed", failed_message := none, failed_reason := none },
         { loan_id := some "L2", created_at := some 3, completed_at := none,
           status := some "failed", failed_message := none, failed_reason := none }]
        0).map (fun d => d.decision_reason) =
      ["STOP: Deuda Saldada (Saldo $0)"] ∧
    "STOP: Deuda Saldada (Saldo $0)" ≠ "STOP: Límite Antigüedad (>1 año)" := by
  constructor
  · decide
  · decide

/-- Claim C4 (amended): for every loan that passes the settled rule
(coerced amount above 1) and the chargeback, message and bank kill-switch
rules, overdue days above the zombie threshold yield STOP with the
age-limit reason when the attempt counter reaches the zombie limit, and
otherwise SCHEDULE for the next semi-monthly date — decided before the
standard max-attempts rule; the L2 scenario needs an outstanding amount
above 1 (e.g. 2000) for this rule to be reached. -/
theorem c4_zombie_rule :
    ∀ (f : Features) (now : Int) (cfg : Config),
      ¬ (amountOf f ≤ 1) →
      lastStatusOf f ≠ "chargeback" →
      isByCustomerOrder f = false →
      isPossibleError f = false →
      isHardDeclineGeneric f = false →
      killBankHit cfg f = false →
      overdueOf f > cfg.zombieDaysThreshold →
      decideLoanV2 f now cfg =
        (if attemptsOf f ≥ cfg.zombieMaxAttempts then
          ⟨f.loan_id, .STOP, "STOP: Límite Antigüedad (>1 año)", none,
            cfg.confidence.stopZombieLimit⟩
        else
          ⟨f.loan_id, .SCHEDULE, "SCHEDULE: Solo Quincena (Zombie)",
            some (nextQuincenaDate now), cfg.confidence.scheduleZombie⟩) := by
  intro f now cfg h1 h2 h3 h4 h5 h6 h7
  unfold decideLoanV2
  rw [if_neg h1, if_neg h2, if_neg (by simp [h3]), if_neg (by simp [h4]),
    if_neg (by simp [h5]), if_neg (by simp [h6]), if_pos h7]

/-- Witness for C4: loan L2 with outstanding amount 2000, 400 overdue
days and 3 attempts in the cycle is stopped with the age-limit reason. -/
theorem c4_zombie_rule_witness :
    decideLoanV2
        { loan_id := "L2", payment_method_bank := none,
          total_amount_outstanding := some 2000, overdue_days := some 400,
          intentos_ciclo_actual := some 3, last_req_status := some "failed",
          failed_message := some "none" } 0 DEFAULT_DECISION_CONFIG =
      ⟨"L2", .STOP, "STOP: Límite Antigüedad (>1 año)", none,
        DEFAULT_DECISION_CONFIG.confidence.stopZombieLimit⟩ :=
  c4_zombie_rule
    { loan_id := "L2", payment_method_bank := none,
      total_amount_outstanding := some 2000, overdue_days := some 400,
      intentos_ciclo_actual := some 3, last_req_status := some "failed",
      failed_message := some "none" } 0 DEFAULT_DECISION_CONFIG
    (by decide) (by decide) (by decide) (by decide) (by decide) (by decide)
    (by decide)

/-- Counterexample for C7: in the canonical core the generic hard-decline
test has no insufficient-funds exclusion, so a failure message containing
both the insufficient-funds phrase and a hard-decline keyword is stopped
as a hard decline. -/
theorem c7_counterexample :
    jsIncludes
        (msgOf
          { loan_id := "X", payment_method_bank := none,
            total_amount_outstanding := some 500, overdue_days := some 10,
            intentos_ciclo_actual := some 1, last_req_status := some "failed",
            failed_message := some "cuenta cancelada - insuficiencia de fondos" })
        "insuficiencia de fondos" = true ∧
    (decideLoanV2
        { loan_id := "X", payment_method_bank := none,
          total_amount_outstanding := some 500, overdue_days := some 10,
          intentos_ciclo_actual := some 1, last_req_status := some "failed",
          failed_message := some "cuenta cancelada - insuficiencia de fondos" }
        0 DEFAULT_DECISION_CONFIG).decision_reason =
      "STOP: Cuenta Inválida (Hard Decline)" := by
  constructor
  · decide
  · decide

/-- Claim C7 (amended): in the part_004 variant — whose message catalog the
spec describes — a failure message containing `'insuficiencia de fondos'`
never produces the hard-decline STOP; in the canonical core the exclusion
is absent, so the guarantee there requires the message to contain none of
the four hard-decline keywords. -/
theorem c7_insufficient_funds_excluded :
    ∀ (f : Features) (now : Int),
      jsIncludes (PartFour.msgOf f) "insuficiencia de fondos" = true →
      (PartFour.decideLoanV2 f now).decision_reason ≠
        "STOP: Cuenta Inválida (Hard Decline)" := by
  intro f now h
  have ho : PartFour.isOtherHardDecline f = false := by
    unfold PartFour.isOtherHardDecline PartFour.isInsuficienciaFondos
    rw [h]
    simp
  unfold PartFour.decideLoanV2
  by_cases h1 : PartFour.amountOf f ≤ 1
  · rw [if_pos h1]
    simp
  rw [if_neg h1]
  by_cases h2 : PartFour.lastStatusOf f = "chargeback"
  · rw [if_pos h2]
    simp
  rw [if_neg h2]
  by_cases h3 : PartFour.isOrdenCliente f = true
  · rw [if_pos h3]
    simp
  rw [if_neg h3]
  by_cases h4 : PartFour.isPosibleError f = true
  · rw [if_pos h4]
    simp
  rw [if_neg h4]
  rw [if_neg (by simp [ho])]
  by_cases h6 : jsIncludes (PartFour.bankOf f) "MONTERREY" = true
  · rw [if_pos h6]
    simp
  rw [if_neg h6]
  by_cases h7 : PartFour.overdueOf f > 365
  · rw [if_pos h7]
    by_cases h7b : PartFour.attemptsForLimits f ≥ 3
    · rw [if_pos h7b]
      simp
    rw [if_neg h7b]
    simp
  rw [if_neg h7]
  by_cases h8 : PartFour.attemptsForLimits f ≥ 12
  · rw [if_pos h8]
    simp
  rw [if_neg h8]
  by_cases h9 : PartFour.amountOf f < 1000
  · rw [if_pos h9]
    simp
  rw [if_neg h9]
  by_cases h10 : PartFour.overdueOf f ≤ 5
  · rw [if_pos h10]
    simp
  rw [if_neg h10]
  by_cases h11 : jsIncludes (PartFour.bankOf f) "AZTECA" = true ∨
      PartFour.amountOf f > 5000
  · rw [if_pos h11]
    simp
  rw [if_neg h11]
  by_cases h12 : 6 ≤ PartFour.overdueOf f ∧ PartFour.overdueOf f ≤ 20
  · rw [if_pos h12]
    simp
  rw [if_neg h12]
  by_cases h13 : PartFour.overdueOf f > 20
  · rw [if_pos h13]
    simp
  rw [if_neg h13]
  simp

/-- Witness for C7: a pure insufficient-funds message in the part_004
variant yields a non-hard-decline outcome. -/
theorem c7_insufficient_funds_excluded_witness :
    (PartFour.decideLoanV2
        { loan_id := "W7", payment_method_bank := none,
          total_amount_outstanding := some 500, overdue_days := some 10,
          intentos_ciclo_actual := some 1, last_req_status := some "failed",
          failed_message := some "cuenta con insuficiencia de fondos" }
        0).decision_reason ≠ "STOP: Cuenta Inválida (Hard Decline)" :=
  c7_insufficient_funds_excluded
    { loan_id := "W7", payment_method_bank := none,
      total_amount_outstanding := some 500, overdue_days := some 10,
      intentos_ciclo_actual := some 1, last_req_status := some "failed",
      failed_message := some "cuenta con insuficiencia de fondos" } 0 (by decide)

/-- Counterexample for C8: only the bank name is upper-cased before the
containment test, so a configured kill-list entry containing lower-case
letters never matches — here bank `'monterrey'` contains the configured
entry `'monterrey'` case-insensitively (even literally), yet the loan is
not stopped. -/
theorem c8_counterexample :
    jsIncludes
        (jsToUpper (bankOf
          { loan_id := "X", payment_method_bank := some "monterrey",
            total_amount_outstanding := some 2000, overdue_days := some 0,
            intentos_ciclo_actual := none, last_req_status := none,
            failed_message := none }))
        (jsToUpper "monterrey") = true ∧
    (decideLoanV2
        { loan_id := "X", payment_method_bank := some "monterrey",
          total_amount_outstanding := some 2000, overdue_days := some 0,
          intentos_ciclo_actual := none, last_req_status := none,
          failed_message := none } 0
        { DEFAULT_DECISION_CONFIG with killBanks := ["monterrey"] }).decision =
      .RETRY ∧
    DecisionKind.RETRY ≠ .STOP := by
  refine ⟨by decide, by decide, by decide⟩

/-- Claim C8 (amended): for a loan past the settled, chargeback and
message rules whose upper-cased bank name contains a configured kill-list
entry verbatim — as every entry of the default all-upper-case kill list
can be — the decision is STOP with the bank-blocked reason; containment is
case-insensitive in the bank name only, not in the configured entry. -/
theorem c8_kill_bank_rule :
    ∀ (f : Features) (now : Int) (cfg : Config),
      ¬ (amountOf f ≤ 1) →
      lastStatusOf f ≠ "chargeback" →
      isByCustomerOrder f = false →
      isPossibleError f = false →
      isHardDeclineGeneric f = false →
      (∃ e ∈ cfg.killBanks, jsIncludes (bankOf f) e = true) →
      decideLoanV2 f now cfg =
        ⟨f.loan_id, .STOP, "STOP: Banco Bloqueado", none,
          cfg.confidence.stopKillBank⟩ := by
  intro f now cfg h1 h2 h3 h4 h5 h6
  have hk : killBankHit cfg f = true := by
    unfold killBankHit
    rw [List.any_eq_true]
    exact h6
  unfold decideLoanV2
  rw [if_neg h1, if_neg h2, if_neg (by simp [h3]), if_neg (by simp [h4]),
    if_neg (by simp [h5]), if_pos hk]

/-- Witness for C8: the spec scenario loan L3 with bank
`'Monterrey Regional'` and outstanding amount 2000 is stopped as bank
blocked under the default configuration. -/
theorem c8_kill_bank_rule_witness :
    decideLoanV2
        { loan_id := "L3", payment_method_bank := some "Monterrey Regional",
          total_amount_outstanding := some 2000, overdue_days := none,
          intentos_ciclo_actual := none, last_req_status := none,
          failed_message := none } 0 DEFAULT_DECISION_CONFIG =
      ⟨"L3", .STOP, "STOP: Banco Bloqueado", none,
        DEFAULT_DECISION_CONFIG.confidence.stopKillBank⟩ :=
  c8_kill_bank_rule
    { loan_id := "L3", payment_method_bank := some "Monterrey Regional",
      total_amount_outstanding := some 2000, overdue_days := none,
      intentos_ciclo_actual := none, last_req_status := none,
      failed_message := none } 0 DEFAULT_DECISION_CONFIG
    (by decide) (by decide) (by decide) (by decide) (by decide)
    ⟨"MONTERREY", by decide, by decide⟩

/-- Claim C1: when the coerced outstanding amount is at most 1, the
canonical cascade returns STOP with the settled reason and the configured
`stopSettled` confidence, for every bank, status, message, overdue-day and
attempt value and before every other rule; and `stopSettled` is the
largest confidence in the default configuration. -/
theorem c1_settled_rule_first :
    (∀ (f : Features) (now : Int) (cfg : Config), amountOf f ≤ 1 →
      decideLoanV2 f now cfg =
        ⟨f.loan_id, .STOP, "STOP: Deuda Saldada (Saldo $0)", none,
          cfg.confidence.stopSettled⟩) ∧
    (∀ x ∈ confidenceValues DEFAULT_DECISION_CONFIG.confidence,
      x ≤ DEFAULT_DECISION_CONFIG.confidence.stopSettled) := by
  constructor
  · intro f now cfg h
    unfold decideLoanV2
    rw [if_pos h]
  · intro x hx
    simp only [confidenceValues, DEFAULT_DECISION_CONFIG, List.mem_cons,
      List.not_mem_nil, or_false] at hx
    rcases hx with rfl | rfl | rfl | rfl | rfl | rfl | rfl | rfl | rfl | rfl |
      rfl | rfl | rfl | rfl | rfl <;> norm_num [DEFAULT_DECISION_CONFIG]

/-- Witness for C1: a loan with a missing outstanding amount (coerced
to 0) is stopped as settled with confidence 0.99. -/
theorem c1_settled_rule_first_witness :
    amountOf
        { loan_id := "W1", payment_method_bank := some "BBVA",
          total_amount_outstanding := none, overdue_days := some 77,
          intentos_ciclo_actual := some 4, last_req_status := some "failed",
          failed_message := some "cuenta bloqueada" } ≤ 1 ∧
      decideLoanV2
        { loan_id := "W1", payment_method_bank := some "BBVA",
          total_amount_outstanding := none, overdue_days := some 77,
          intentos_ciclo_actual := some 4, last_req_status := some "failed",
          failed_message := some "cuenta bloqueada" } 0 DEFAULT_DECISION_CONFIG =
        ⟨"W1", .STOP, "STOP: Deuda Saldada (Saldo $0)", none,
          DEFAULT_DECISION_CONFIG.confidence.stopSettled⟩ :=
  ⟨by decide, c1_settled_rule_first.1 _ 0 DEFAULT_DECISION_CONFIG (by decide)⟩

/-- Claim C2: in the canonical cascade, in the part_004 variant, and in
part_003's `buildDecision`, the produced record carries a next-attempt
(proposed) date exactly when its decision is not STOP. -/
theorem c2_date_iff_not_stop :
    (∀ (f : Features) (now : Int) (cfg : Config),
      (decideLoanV2 f now cfg).next_attempt_date ≠ none ↔
        (decideLoanV2 f now cfg).decision ≠ .STOP) ∧
    (∀ (f : Features) (now : Int),
      (PartFour.decideLoanV2 f now).next_attempt_date ≠ none ↔
        (PartFour.decideLoanV2 f now).decision ≠ .STOP) ∧
    (∀ (dt : DecisionKind) (label : String) (q i : Int),
      (PartThree.buildDecision dt label q i).proposed_date ≠ none ↔
        (PartThree.buildDecision dt label q i).decision ≠ .STOP) := by
  refine ⟨?_, ?_, ?_⟩
  · intro f now cfg
    unfold decideLoanV2
    by_cases h1 : amountOf f ≤ 1
    · rw [if_pos h1]
      simp
    rw [if_neg h1]
    by_cases h2 : lastStatusOf f = "chargeback"
    · rw [if_pos h2]
      simp
    rw [if_neg h2]
    by_cases h3 : isByCustomerOrder f = true
    · rw [if_pos h3]
      simp
    rw [if_neg h3]
    by_cases h4 : isPossibleError f = true
    · rw [if_pos h4]
      simp
    rw [if_neg h4]
    by_cases h5 : isHardDeclineGeneric f = true
    · rw [if_pos h5]
      simp
    rw [if_neg h5]
    by_cases h6 : killBankHit cfg f = true
    · rw [if_pos h6]
      simp
    rw [if_neg h6]
    by_cases h7 : overdueOf f > cfg.zombieDaysThreshold
    · rw [if_pos h7]
      by_cases h7b : attemptsOf f ≥ cfg.zombieMaxAttempts
      · rw [if_pos h7b]
        simp
      rw [if_neg h7b]
      simp
    rw [if_neg h7]
    by_cases h8 : attemptsOf f ≥ cfg.maxAttempts
    · rw [if_pos h8]
      simp
    rw [if_neg h8]
    by_cases h9 : amountOf f > 0 ∧ amountOf f < cfg.microDebtThreshold
    · rw [if_pos h9]
      simp
    rw [if_neg h9]
    by_cases h10 : overdueOf f ≤ cfg.freshDaysThreshold
    · rw [if_pos h10]
      simp
    rw [if_neg h10]
    by_cases h11 : riskBankHit cfg f = true ∨ amountOf f > cfg.highAmountThreshold
    · rw [if_pos h11]
      simp
    rw [if_neg h11]
    by_cases h12 : 6 ≤ overdueOf f ∧ overdueOf f ≤ 20
    · rw [if_pos h12]
      simp
    rw [if_neg h12]
    by_cases h13 : overdueOf f > 20
    · rw [if_pos h13]
      simp
    rw [if_neg h13]
    simp
  · intro f now
    unfold PartFour.decideLoanV2
    by_cases h1 : PartFour.amountOf f ≤ 1
    · rw [if_pos h1]
      simp
    rw [if_neg h1]
    by_cases h2 : PartFour.lastStatusOf f = "chargeback"
    · rw [if_pos h2]
      simp
    rw [if_neg h2]
    by_cases h3 : PartFour.isOrdenCliente f = true
    · rw [if_pos h3]
      simp
    rw [if_neg h3]
    by_cases h4 : PartFour.isPosibleError f = true
    · rw [if_pos h4]
      simp
    rw [if_neg h4]
    by_cases h5 : PartFour.isOtherHardDecline f = true
    · rw [if_pos h5]
      simp
    rw [if_neg h5]
    by_cases h6 : jsIncludes (PartFour.bankOf f) "MONTERREY" = true
    · rw [if_pos h6]
      simp
    rw [if_neg h6]
    by_cases h7 : PartFour.overdueOf f > 365
    · rw [if_pos h7]
      by_cases h7b : PartFour.attemptsForLimits f ≥ 3
      · rw [if_pos h7b]
        simp
      rw [if_neg h7b]
      simp
    rw [if_neg h7]
    by_cases h8 : PartFour.attemptsForLimits f ≥ 12
    · rw [if_pos h8]
      simp
    rw [if_neg h8]
    by_cases h9 : PartFour.amountOf f < 1000
    · rw [if_pos h9]
      simp
    rw [if_neg h9]
    by_cases h10 : PartFour.overdueOf f ≤ 5
    · rw [if_pos h10]
      simp
    rw [if_neg h10]
    by_cases h11 : jsIncludes (PartFour.bankOf f) "AZTECA" = true ∨
        PartFour.amountOf f > 5000
    · rw [if_pos h11]
      simp
    rw [if_neg h11]
    by_cases h12 : 6 ≤ PartFour.overdueOf f ∧ PartFour.overdueOf f ≤ 20
    · rw [if_pos h12]
      simp
    rw [if_neg h12]
    by_cases h13 : PartFour.overdueOf f > 20
    · rw [if_pos h13]
      simp
    rw [if_neg h13]
    simp
  · intro dt label q i
    unfold PartThree.buildDecision
    rcases dt <;> simp

/-- Claim C6: with a last-attempt timestamp present, a proposed date below
`last_attempt + minGap` days is floored exactly there (when the floor is
past `now`); a floored value not strictly after `now` becomes
`next15or30(now + 1 day)`; and in the spec scenario (`minGap = 3`, last
attempt one day before `now`) an early proposal lands exactly on the
floor. -/
theorem c6_min_gap :
    ∀ (ts minGap now proposed : Int),
      (proposed < PartOne.addDays ts minGap → now < PartOne.addDays ts minGap →
        PartOne.enforceMinGap (some ts) minGap now proposed =
          PartOne.addDays ts minGap) ∧
      ((if proposed < PartOne.addDays ts minGap then PartOne.addDays ts minGap
          else proposed) ≤ now →
        PartOne.enforceMinGap (some ts) minGap now proposed =
          PartOne.next15or30 (PartOne.addDays now 1)) ∧
      (ts = PartOne.addDays now (-1) → proposed < PartOne.addDays ts 3 →
        PartOne.enforceMinGap (some ts) 3 now proposed = PartOne.addDays ts 3) := by
  intro ts minGap now proposed
  refine ⟨?_, ?_, ?_⟩
  · intro h1 h2
    unfold PartOne.enforceMinGap
    dsimp only
    rw [if_pos h1, if_neg (by omega)]
  · intro h1
    unfold PartOne.enforceMinGap
    dsimp only
    by_cases hp : proposed < PartOne.addDays ts minGap
    · rw [if_pos hp] at h1 ⊢
      rw [if_pos h1]
    · rw [if_neg hp] at h1 ⊢
      rw [if_pos h1]
  · intro h1 h2
    subst h1
    unfold PartOne.addDays msPerDay at h2
    unfold PartOne.enforceMinGap PartOne.addDays msPerDay
    dsimp only
    rw [if_pos h2, if_neg (by omega)]

/-- Witness for C6: `now` = 2026-01-10, last attempt one day earlier,
proposal one day after the last attempt: the result is exactly
`last_attempt + 3` days. -/
theorem c6_min_gap_witness :
    PartOne.enforceMinGap (some (PartOne.addDays (jsDateUTC 2026 0 10) (-1))) 3
        (jsDateUTC 2026 0 10)
        (PartOne.addDays (PartOne.addDays (jsDateUTC 2026 0 10) (-1)) 1) =
      PartOne.addDays (PartOne.addDays (jsDateUTC 2026 0 10) (-1)) 3 :=
  (c6_min_gap (PartOne.addDays (jsDateUTC 2026 0 10) (-1)) 3 (jsDateUTC 2026 0 10)
      (PartOne.addDays (PartOne.addDays (jsDateUTC 2026 0 10) (-1)) 1)).2.2
    rfl (by decide)

/-- Claim C9: part_003's `decideRetries` maps a per-loan computation over
the input array, so permuting the loans permutes the decisions: every
loan receives the same decision regardless of the order and of the other
loans. -/
theorem c9_order_independence :
    ∀ (loans1 loans2 : List PartThree.LoanRec) (txs : List PartThree.TxRec)
      (today : Int),
      loans1.Perm loans2 →
      (PartThree.decideRetries loans1 txs today).Perm
        (PartThree.decideRetries loans2 txs today) := by
  intro loans1 loans2 txs today h
  exact h.map (PartThree.decideOneLoan txs today)

/-- Witness for C9: swapping two concrete loans permutes the two
decisions. -/
theorem c9_order_independence_witness :
    (PartThree.decideRetries
        [{ loan_id := some "A", payment_method_bank := none,
           total_amount_outstanding := some 2000, loan_amount := none,
           overdue_days := some 10 },
         { loan_id := some "B", payment_method_bank := none,
           total_amount_outstanding := none, loan_amount := none,
           overdue_days := none }] [] 0).Perm
      (PartThree.decideRetries
        [{ loan_id := some "B", payment_method_bank := none,
           total_amount_outstanding := none, loan_amount := none,
           overdue_days := none },
         { loan_id := some "A", payment_method_bank := none,
           total_amount_outstanding := some 2000, loan_amount := none,
           overdue_days := some 10 }] [] 0) :=
  c9_order_independence _ _ [] 0 (List.Perm.swap _ _ [])

/-- Claim C10: part_003's `decideRetries` returns exactly one decision per
input loan, in input order (the i-th decision carries the i-th loan's
trimmed id), and a loan whose id is missing or trims to the empty string
is still evaluated, with the empty-history default state
(`last_req_status = 'new'`, 0 attempts). -/
theorem c10_one_decision_per_loan :
    ∀ (loans : List PartThree.LoanRec) (txs : List PartThree.TxRec) (today : Int),
      (PartThree.decideRetries loans txs today).length = loans.length ∧
      (∀ (i : Nat) (h : i < loans.length),
        (PartThree.decideRetries loans txs today)[i]?.map (fun d => d.loan_id) =
          some (PartThree.loanIdOf loans[i]) ∧
        (PartThree.loanIdOf loans[i] = "" →
          (PartThree.decideRetries loans txs today)[i]? =
            some (PartThree.mkOutDecision loans[i] PartThree.defaultSummary today))) := by
  intro loans txs today
  constructor
  · simp [PartThree.decideRetries]
  · intro i h
    constructor
    · simp [PartThree.decideRetries, List.getElem?_map,
        List.getElem?_eq_getElem h, PartThree.decideOneLoan, PartThree.mkOutDecision]
    · intro h0
      simp only [PartThree.decideRetries, List.getElem?_map,
        List.getElem?_eq_getElem h, Option.map_some']
      have : PartThree.decideOneLoan txs today loans[i] =
          PartThree.mkOutDecision loans[i] PartThree.defaultSummary today := by
        unfold PartThree.decideOneLoan
        rw [h0]
        unfold PartThree.stateFor
        rw [if_pos rfl]
      rw [this]

/-- Witness for C10: a single loan whose id trims to the empty string is
not dropped and is evaluated with the default state. -/
theorem c10_one_decision_per_loan_witness :
    (PartThree.decideRetries
        [{ loan_id := some "  ", payment_method_bank := none,
           total_amount_outstanding := some 2000, loan_amount := none,
           overdue_days := some 10 }] [] 0)[0]? =
      some (PartThree.mkOutDecision
        { loan_id := some "  ", payment_method_bank := none,
          total_amount_outstanding := some 2000, loan_amount := none,
          overdue_days := some 10 } PartThree.defaultSummary 0) :=
  ((c10_one_decision_per_loan
      [{ loan_id := some "  ", payment_method_bank := none,
         total_amount_outstanding := some 2000, loan_amount := none,
         overdue_days := some 10 }] [] 0).2 0 (by decide)).2 (by decide)

/-- Counterexample to C5 as stated: for February 20, 2026 (day-of-month 20, so in
the 16..30 band) `nextQuincenaDate` does NOT clamp to the last valid day of the
shorter month. It asks Date.UTC for February 30, which JS normalizes by overflow
to March 2, 2026 — not February 28. -/
theorem c5_counterexample :
    nextQuincenaDate (jsDateUTC 2026 1 20) = jsDateUTC 2026 2 2 ∧
    civilFromDays (nextQuincenaDate (jsDateUTC 2026 1 20) / msPerDay) = (2026, 3, 2) ∧
    nextQuincenaDate (jsDateUTC 2026 1 20) ≠ jsDateUTC 2026 1 28 := by
  decide

/-- C5 (corrected): `nextQuincenaDate` always returns a start-of-UTC-day timestamp.
When the UTC day-of-month is at most 15 it returns the 15th of the same month
(i.e. the start of the input's UTC day shifted forward by `15 - day` days); when
the day is 16 through 30 it returns day 30 counted with JS Date.UTC overflow
semantics — the input day shifted forward by `30 - day` days, which lands in the
NEXT month when the current month is shorter than 30 days (no clamping); and when
the day exceeds 30 (day 31) it returns the day shifted forward by exactly 15 days,
which is the 15th of the next month, rolling the year at December. -/
theorem c5_next_quincena_behavior (t : Int) :
    (nextQuincenaDate t) % msPerDay = 0 ∧
    (getUTCDate t ≤ 15 →
      nextQuincenaDate t = msPerDay * (t / msPerDay) + (15 - getUTCDate t) * msPerDay) ∧
    (15 < getUTCDate t → getUTCDate t ≤ 30 →
      nextQuincenaDate t = msPerDay * (t / msPerDay) + (30 - getUTCDate t) * msPerDay) ∧
    (30 < getUTCDate t →
      nextQuincenaDate t = msPerDay * (t / msPerDay) + 15 * msPerDay) := by
  have spec := civilFromDays_spec (t / msPerDay)
  unfold nextQuincenaDate getUTCFullYear getUTCMonth getUTCDate
  rcases hc : civilFromDays (t / msPerDay) with ⟨y, m, d⟩
  rw [hc] at spec
  dsimp only at spec ⊢
  obtain ⟨hrt, hm1, hm12, hd1, hd31, h31⟩ := spec
  refine ⟨?_, ?_, ?_, ?_⟩
  · unfold jsDateUTC
    split_ifs <;> simp [Int.mul_emod_right]
  · intro hle
    rw [if_pos hle]
    unfold jsDateUTC
    have e1 : (m - 1) / 12 = 0 := by omega
    have e2 : (m - 1) % 12 = m - 1 := by omega
    rw [e1, e2, add_zero, show m - 1 + 1 = m from by ring]
    rw [daysFromCivil_day_shift y m d 15, hrt]
    ring
  · intro hgt hle
    rw [if_neg (by omega), if_pos hle]
    unfold jsDateUTC
    have e1 : (m - 1) / 12 = 0 := by omega
    have e2 : (m - 1) % 12 = m - 1 := by omega
    rw [e1, e2, add_zero, show m - 1 + 1 = m from by ring]
    rw [daysFromCivil_day_shift y m d 30, hrt]
    ring
  · intro hgt
    rw [if_neg (by omega), if_neg (by omega)]
    have hd : d = 31 := by omega
    have h15 := h31 hd
    by_cases hm : m - 1 + 1 > 11
    · rw [if_pos hm]
      have hm12' : m = 12 := by omega
      rw [if_pos hm12', if_pos hm12'] at h15
      unfold jsDateUTC
      rw [show ((0 : Int)) / 12 = 0 from by decide, show ((0 : Int)) % 12 + 1 = 1 from by decide,
        add_zero]
      rw [h15]
      ring
    · rw [if_neg hm]
      have hm12' : ¬ (m = 12) := by omega
      rw [if_neg hm12', if_neg hm12'] at h15
      unfold jsDateUTC
      rw [show m - 1 + 1 = m from by ring]
      have e1 : m / 12 = 0 := by omega
      have e2 : m % 12 = m := by omega
      rw [e1, e2, add_zero]
      rw [h15]
      ring

/-- Concrete instances of C5: March 10, 2026 maps to March 15; March 20 maps to
March 30; December 31, 2025 maps to January 15, 2026. -/
theorem c5_next_quincena_behavior_witness :
    (getUTCDate (jsDateUTC 2026 2 10) ≤ 15 ∧
      nextQuincenaDate (jsDateUTC 2026 2 10) = jsDateUTC 2026 2 15) ∧
    (15 < getUTCDate (jsDateUTC 2026 2 20) ∧ getUTCDate (jsDateUTC 2026 2 20) ≤ 30 ∧
      nextQuincenaDate (jsDateUTC 2026 2 20) = jsDateUTC 2026 2 30) ∧
    (30 < getUTCDate (jsDateUTC 2025 11 31) ∧
      nextQuincenaDate (jsDateUTC 2025 11 31) = jsDateUTC 2026 0 15) :=
  ⟨⟨by decide,
    ((c5_next_quincena_behavior (jsDateUTC 2026 2 10)).2.1 (by decide)).trans (by decide)⟩,
   ⟨by decide, by decide,
    ((c5_next_quincena_behavior (jsDateUTC 2026 2 20)).2.2.1 (by decide) (by decide)).trans
      (by decide)⟩,
   ⟨by decide,
    ((c5_next_quincena_behavior (jsDateUTC 2025 11 31)).2.2.2 (by decide)).trans (by decide)⟩⟩

end DecisionApi
